import Mathlib

/-! Verification of the svitlobot_ha power-watchdog integration.

The definitions below are a shallow embedding of
`custom_components/svitlobot_ha` (coordinator.py, const.py, svitlobot.py,
binary_sensor.py).  Timestamps are modelled as integers (seconds), ages and
durations as rationals (seconds), and outbound side effects (heartbeat ping,
telegram alert, forced entity refresh) as an explicit effect list. -/

namespace Svitlobot

/-- const.py line 19: the fixed, case-sensitive set of offline marker states. -/
def OFFLINE_STATES : List String := ["unavailable", "unknown", "offline"]

/-- coordinator.py line 39: heartbeat rate-limit interval in seconds. -/
def SVITLOBOT_PING_INTERVAL_S : Int := 30

/-- coordinator.py lines 42-46: the published snapshot dataclass `WatchdogData`. -/
structure WatchdogData where
  online : Bool
  watched_entity_id : String
  state : Option String
deriving DecidableEq

/-- coordinator.py lines 49-52: `_is_online` (state is online iff present and
not an offline marker; no numeric parsing happens anywhere in the source). -/
def is_online : Option String → Bool
  | none => false
  | some s => decide (s ∉ OFFLINE_STATES)

/-- A reading of the watched entity from the host state store: the raw state
string plus the age in seconds of `_get_report_time(st)` relative to
`dt_util.utcnow()` at evaluation time (coordinator.py lines 122-124, 133). -/
structure SensorState where
  state : String
  age : ℚ
deriving DecidableEq

/-- coordinator.py lines 126-137: `_compute_online`, returning
`(online, state, age)`; a missing entity yields `(False, None, None)`. -/
def compute_online (st : Option SensorState) (staleTimeout : Int) :
    Bool × Option String × Option ℚ :=
  match st with
  | none => (false, none, none)
  | some s =>
      let online := is_online (some s.state)
      if online = true ∧ 0 < staleTimeout ∧ (staleTimeout : ℚ) < s.age then
        (false, some s.state, some s.age)
      else
        (online, some s.state, some s.age)

/-- coordinator.py lines 55-74: `_format_duration`.  Negative inputs are
clamped to 0, then truncated to an integer (`int(seconds)`; for nonnegative
values truncation equals the floor). -/
def format_duration : Option ℚ → Option String
  | none => none
  | some seconds =>
      let s0 := if seconds < 0 then (0 : ℚ) else seconds
      let total : Nat := s0.floor.toNat
      let days := total / 86400
      let rem := total % 86400
      let hours := rem / 3600
      let rem2 := rem % 3600
      let minutes := rem2 / 60
      let secs := rem2 % 60
      let parts :=
        (if days ≠ 0 then [toString days ++ "д"] else []) ++
        (if hours ≠ 0 then [toString hours ++ "г"] else []) ++
        (if minutes ≠ 0 then [toString minutes ++ "хв"] else []) ++
        [toString secs ++ "с"]
      some (String.intercalate " " parts)

/-- Configuration of one coordinator instance, read in `__init__`
(coordinator.py lines 90-113).  `token` and `chat_id` use `""` for the falsy
values (`None` or the empty string) tested by `if not self._token` etc. -/
structure Cfg where
  stale_timeout : Int
  voltage_entity_id : String
  token : String
  chat_id : String
  debounce : Int
  notify_on_start : Bool
  refresh_every : Int
  telegram_enabled : Bool
  svitlobot_channel_key : String
  probe_when_offline : Bool
  probe_every : Int
  check_interval : Int
deriving DecidableEq

/-- The coordinator's mutable fields relevant to the watchdog logic
(coordinator.py lines 113-120 plus `self.data`). -/
structure CoordState where
  data : Option WatchdogData
  online_since : Option Int
  offline_since : Option Int
  last_probe_ts : Int
  last_refresh_ts : Int
  last_svitlobot_ping_ts : Int
deriving DecidableEq

/-- The coordinator state as constructed, before `async_start` runs. -/
def initCoordState : CoordState := ⟨none, none, none, 0, 0, 0⟩

/-- Outbound side effects of the coordinator. -/
inductive Effect where
  | heartbeat (channel_key : String)
  | telegram (token chat_id text : String)
  | update_entity (entity_id : String)
deriving DecidableEq

/-- svitlobot.py lines 11-28: `async_channel_ping`, modelled as the list of
HTTP GET request URLs it issues (empty key means no request at all). -/
def SVITLOBOT_PING_URL_BASE : String :=
  "https://api.svitlobot.in.ua/channelPing?channel_key="

/-- svitlobot.py lines 14-19: the requests issued by one `async_channel_ping`
call; the guard `if not channel_key: return` makes an empty key a no-op. -/
def async_channel_ping (channel_key : String) : List String :=
  if channel_key = "" then [] else [SVITLOBOT_PING_URL_BASE ++ channel_key]

/-- coordinator.py lines 139-146: `_sync_data_without_notify` replaces the
published snapshot in place; it touches no other coordinator field. -/
def sync_data_without_notify (cfg : Cfg) (online : Bool) (state : Option String)
    (s : CoordState) : CoordState :=
  { s with data := some ⟨online, cfg.voltage_entity_id, state⟩ }

/-- coordinator.py lines 148-158: `_fire_svitlobot_ping_if_needed`.  The float
truthiness test `if self._last_svitlobot_ping_ts` is `last ≠ 0`. -/
def fire_svitlobot_ping_if_needed (cfg : Cfg) (now_ts : Int) (s : CoordState) :
    CoordState × List Effect :=
  if cfg.svitlobot_channel_key = "" then (s, [])
  else if s.last_svitlobot_ping_ts ≠ 0 ∧
      now_ts - s.last_svitlobot_ping_ts < SVITLOBOT_PING_INTERVAL_S then (s, [])
  else ({ s with last_svitlobot_ping_ts := now_ts },
        [Effect.heartbeat cfg.svitlobot_channel_key])

/-- C5: if the classified status would be true, the stale timeout is positive
and the age strictly exceeds the timeout, the status is forced to false; an age
exactly equal to the timeout is not stale, and a zero timeout (or an
already-false status) disables the override.  Stated as an exact
characterisation of `_compute_online`'s boolean result. -/
theorem staleness_override_strict_gt (st : SensorState) (T : Int) :
    (compute_online (some st) T).1
      = (is_online (some st.state) && !(decide (0 < T) && decide ((T : ℚ) < st.age))) ∧
    (compute_online (some ⟨st.state, (T : ℚ)⟩) T).1 = is_online (some st.state) ∧
    (compute_online (some st) 0).1 = is_online (some st.state) := by
  refine ⟨?_, ?_, ?_⟩
  · cases hon : is_online (some st.state) <;>
      by_cases h1 : 0 < T <;>
      by_cases h2 : (T : ℚ) < st.age <;>
      simp [compute_online, hon, h1, h2]
  · cases hon : is_online (some st.state) <;> simp [compute_online, hon]
  · cases hon : is_online (some st.state) <;> simp [compute_online, hon]

/-- C8: every raw value in the offline-marker set, and a missing entity
(`None` state), classifies as status=false regardless of staleness; a missing
entity is an ordinary `(False, None, None)` result, not an error. -/
theorem offline_markers_always_off (st : SensorState) (T : Int)
    (hm : st.state ∈ OFFLINE_STATES) :
    (compute_online (some st) T).1 = false ∧
    compute_online none T = (false, none, none) := by
  constructor
  · have hon : is_online (some st.state) = false := by simp [is_online, hm]
    by_cases h1 : 0 < T <;> by_cases h2 : (T : ℚ) < st.age <;>
      simp [compute_online, hon, h1, h2]
  · rfl

/-- Witness for `offline_markers_always_off`: the marker "unavailable" with a
very stale age of 500 s under timeout 90 still classifies as off. -/
theorem offline_markers_always_off_witness :
    "unavailable" ∈ OFFLINE_STATES ∧
    ((compute_online (some ⟨"unavailable", 500⟩) 90).1 = false ∧
      compute_online none 90 = (false, none, none)) :=
  ⟨by decide, offline_markers_always_off ⟨"unavailable", 500⟩ 90 (by decide)⟩

/-- C1 counterexample: the claim requires a numeric reading of "5" (below the
claimed power-on threshold 200) to classify as status=false, but the code has
no numeric parse and no threshold: `_compute_online` classifies a fresh "5"
reading as online. -/
theorem classify_five_is_online_ce :
    compute_online (some ⟨"5", 0⟩) 90 = (true, some "5", some 0) := by decide

/-- C1 amended: the classifier performs no numeric parsing and has no power-on
threshold; whenever the staleness override is inactive, a non-null raw state
classifies as status=true exactly when it is not an offline marker (so "5" is
classified online). -/
theorem classify_no_threshold (s : String) (age : ℚ) (T : Int)
    (h : ¬ (0 < T ∧ (T : ℚ) < age)) :
    ((compute_online (some ⟨s, age⟩) T).1 = true ↔ s ∉ OFFLINE_STATES) := by
  simp [compute_online, is_online, h]

/-- Witness for `classify_no_threshold` at the claim's own input "5". -/
theorem classify_no_threshold_witness :
    ¬ (0 < (90 : Int) ∧ ((90 : Int) : ℚ) < (0 : ℚ)) ∧
    ((compute_online (some ⟨"5", 0⟩) 90).1 = true ↔ "5" ∉ OFFLINE_STATES) :=
  ⟨by decide, classify_no_threshold "5" 0 90 (by decide)⟩

/-- C9: `_format_duration` renders compact day/hour/minute/second strings,
omitting zero leading units and always showing seconds: 0 s renders as "0с",
3661 s as "1г 1хв 1с" (no day component), 90061 s as "1д 1г 1хв 1с". -/
theorem format_duration_roundtrip :
    format_duration (some 0) = some "0с" ∧
    format_duration (some 3661) = some "1г 1хв 1с" ∧
    format_duration (some 90061) = some "1д 1г 1хв 1с" := by
  refine ⟨by decide, by decide, by decide⟩

/-! The pending-transition task discipline (claim C3).  Tasks created by
`hass.async_create_task` for `_debounced_commit_and_notify` are modelled by
ids; `live` holds the ids of tasks that are neither finished nor cancelled,
`pending` is the coordinator's `_pending_task` slot (it may still name a
finished task, matching the `done()` check in the source). -/

structure TaskSys where
  live : List Nat
  pending : Option Nat
  next : Nat
deriving DecidableEq

/-- coordinator.py lines 222-223, 291-292, 391-392: cancel the pending task if
it is still live (`if self._pending_task and not self._pending_task.done()`). -/
def cancel_pending (t : TaskSys) : TaskSys :=
  match t.pending with
  | some i => { t with live := t.live.erase i }
  | none => t

/-- coordinator.py lines 222-232 and 291-306: both `_handle` and
`_periodic_check` first cancel any live pending task, then create a fresh
debounced-commit task and store it in `_pending_task`. -/
def schedule_pending (t : TaskSys) : TaskSys :=
  let c := cancel_pending t
  ⟨c.live ++ [c.next], some c.next, c.next + 1⟩

/-- A live task runs to completion (commits or aborts): it leaves the live set.
Only a live task can take this step. -/
def finish_task (i : Nat) (t : TaskSys) : TaskSys :=
  { t with live := t.live.erase i }

/-- Reachable task-slot states of one coordinator: start with no task
(`self._pending_task = None`, coordinator.py line 88), then any interleaving of
scheduling (event handler or periodic check), task completion, and
`async_stop`'s cancellation. -/
inductive Reach : TaskSys → Prop where
  | init : Reach ⟨[], none, 0⟩
  | step_schedule {t : TaskSys} : Reach t → Reach (schedule_pending t)
  | step_finish {t : TaskSys} {i : Nat} : Reach t → i ∈ t.live → Reach (finish_task i t)
  | step_stop {t : TaskSys} : Reach t → Reach (cancel_pending t)

/-- Inductive invariant: the live set is empty or the singleton of the pending
task, and every live id was allocated before `next`. -/
def TaskInv (t : TaskSys) : Prop :=
  (t.live = [] ∨ ∃ i, t.live = [i] ∧ t.pending = some i) ∧
  ∀ i ∈ t.live, i < t.next

theorem cancel_pending_live {t : TaskSys} (h : TaskInv t) :
    (cancel_pending t).live = [] := by
  obtain ⟨h1, _⟩ := h
  rcases h1 with h1 | ⟨i, hi, hpi⟩
  · unfold cancel_pending
    cases hp : t.pending <;> simp [h1]
  · unfold cancel_pending
    rw [hpi, hi]
    simp

theorem cancel_pending_next (t : TaskSys) : (cancel_pending t).next = t.next := by
  unfold cancel_pending
  cases t.pending <;> rfl

theorem reach_inv {t : TaskSys} (h : Reach t) : TaskInv t := by
  induction h with
  | init => exact ⟨Or.inl rfl, by simp⟩
  | step_schedule _ ih =>
      refine ⟨Or.inr ?_, ?_⟩
      · exact ⟨_, by simp [schedule_pending, cancel_pending_live ih], rfl⟩
      · intro i hi
        simp [schedule_pending, cancel_pending_live ih] at hi
        simp [schedule_pending, hi, cancel_pending_next]
  | step_finish _ hm ih =>
      obtain ⟨h1, h2⟩ := ih
      rcases h1 with h1 | ⟨j, hj, hpj⟩
      · rw [h1] at hm; cases hm
      · rw [hj] at hm
        have : _ = j := List.mem_singleton.mp hm
        subst this
        refine ⟨Or.inl ?_, ?_⟩
        · simp [finish_task, hj]
        · intro i hi
          simp [finish_task, hj] at hi
  | step_stop _ ih =>
      refine ⟨Or.inl (cancel_pending_live ih), ?_⟩
      intro i hi
      rw [cancel_pending_live ih] at hi
      cases hi

/-- C3: in every reachable coordinator state at most one pending-transition
task is live, every live task is exactly the one stored in `_pending_task`,
scheduling a new debounced transition always first cancels the live one (so
afterwards exactly the freshly created task is live), and no previously live
task survives a new scheduling — hence only the most recently scheduled
candidate transition can still commit. -/
theorem pending_transition_at_most_one (t : TaskSys) (h : Reach t) :
    t.live.length ≤ 1 ∧
    (∀ i ∈ t.live, t.pending = some i) ∧
    (schedule_pending t).live = [t.next] ∧
    ∀ i ∈ t.live, i ∉ (schedule_pending t).live := by
  have hi := reach_inv h
  obtain ⟨h1, h2⟩ := hi
  have hsch : (schedule_pending t).live = [t.next] := by
    simp [schedule_pending, cancel_pending_live (reach_inv h), cancel_pending_next]
  refine ⟨?_, ?_, hsch, ?_⟩
  · rcases h1 with h1 | ⟨i, hi', _⟩
    · simp [h1]
    · simp [hi']
  · intro i him
    rcases h1 with h1 | ⟨j, hj, hpj⟩
    · rw [h1] at him; cases him
    · rw [hj] at him
      have : i = j := List.mem_singleton.mp him
      rw [this]; exact hpj
  · intro i him
    rw [hsch]
    have : i < t.next := h2 i him
    simp
    omega

/-- Witness for `pending_transition_at_most_one` at a concrete reachable state
(two schedulings from the initial state). -/
theorem pending_transition_at_most_one_witness :
    (schedule_pending (schedule_pending ⟨[], none, 0⟩)).live.length ≤ 1 ∧
    (∀ i ∈ (schedule_pending (schedule_pending ⟨[], none, 0⟩)).live,
        (schedule_pending (schedule_pending ⟨[], none, 0⟩)).pending = some i) ∧
    (schedule_pending (schedule_pending (schedule_pending ⟨[], none, 0⟩))).live
        = [(schedule_pending (schedule_pending ⟨[], none, 0⟩)).next] ∧
    ∀ i ∈ (schedule_pending (schedule_pending ⟨[], none, 0⟩)).live,
        i ∉ (schedule_pending (schedule_pending (schedule_pending ⟨[], none, 0⟩))).live :=
  pending_transition_at_most_one _ (Reach.step_schedule (Reach.step_schedule Reach.init))

/-- coordinator.py lines 210-232: the `_handle` state-change callback.  The
returned flag is true exactly when the handler cancels any live pending task
and schedules a new debounced transition (modelled by `schedule_pending`);
the handler itself produces no outbound effects. -/
def handle_event (cfg : Cfg) (new_state : Option String) (s : CoordState) :
    CoordState × Bool :=
  let new_online := is_online new_state
  match s.data with
  | some d =>
      if d.online = new_online then
        (sync_data_without_notify cfg new_online new_state s, false)
      else (s, true)
  | none => (s, true)

/-- coordinator.py lines 330-358: the duration bookkeeping and
`_online_since`/`_offline_since` updates of a confirmed commit, returning the
updated state, the alert's `extra` line and the `became_online` flag.
`prev_online = none` takes the source's line-351 `else` branch. -/
def transition_bookkeeping (now : Int) (prev_online : Option Bool)
    (new_online : Bool) (s : CoordState) : CoordState × String × Bool :=
  match prev_online with
  | some p =>
      if p = new_online then
        if new_online then
          ({ s with online_since := some now, offline_since := none }, "", true)
        else
          ({ s with offline_since := some now, online_since := none }, "", false)
      else if p then
        let online_for := s.online_since.map (fun t => ((now - t : Int) : ℚ))
        let duration_line := format_duration online_for
        ({ s with offline_since := some now, online_since := none },
         (match duration_line with
          | some dl => "Світло було: " ++ dl ++ "\n"
          | none => ""),
         false)
      else
        let offline_for := s.offline_since.map (fun t => ((now - t : Int) : ℚ))
        let duration_line := format_duration offline_for
        ({ s with online_since := some now, offline_since := none },
         (match duration_line with
          | some dl => "Світла не було: " ++ dl ++ "\n"
          | none => ""),
         true)
  | none =>
      if new_online then
        ({ s with online_since := some now, offline_since := none }, "", true)
      else
        ({ s with offline_since := some now, online_since := none }, "", false)

/-- coordinator.py lines 308-388: the body of `_debounced_commit_and_notify`
after its debounce sleep (scheduling and cancellation are modelled by
`TaskSys`; a cancelled task never runs this body).  `st` is the sensor reading
at commit time, `now` is `dt_util.utcnow()` and `now_ts` is `time.time()`. -/
def debounced_commit_body (cfg : Cfg) (st : Option SensorState) (now now_ts : Int)
    (new_online : Bool) (s : CoordState) : CoordState × List Effect :=
  let r := compute_online st cfg.stale_timeout
  if r.1 ≠ new_online then (s, [])
  else
    let current_state := r.2.1
    let prev_online := s.data.map (fun w => w.online)
    if prev_online = some new_online then
      (sync_data_without_notify cfg new_online current_state s, [])
    else
      let bk := transition_bookkeeping now prev_online new_online s
      let s2 := sync_data_without_notify cfg new_online current_state bk.1
      let pr :=
        if new_online ∧ bk.2.2 then fire_svitlobot_ping_if_needed cfg now_ts s2
        else (s2, [])
      if cfg.telegram_enabled = false ∨ cfg.token = "" ∨ cfg.chat_id = "" then pr
      else
        let title := if new_online then "✅ Світло є" else "❌ Світло зникло"
        let voltage_line :=
          match current_state with
          | some cs =>
              if cs ∉ OFFLINE_STATES then "Напруга: " ++ cs ++ " В\n" else ""
          | none => ""
        let text := title ++ "\n\n" ++ bk.2.1 ++ voltage_line
        (pr.1, pr.2 ++ [Effect.telegram cfg.token cfg.chat_id text])

/-- coordinator.py lines 247-249: the heartbeat step at the top of
`_periodic_check` (`if self.data and self.data.online`). -/
def periodic_ping_stage (cfg : Cfg) (now_ts : Int) (s : CoordState) :
    CoordState × List Effect :=
  match s.data with
  | some d =>
      if d.online then fire_svitlobot_ping_if_needed cfg now_ts s else (s, [])
  | none => (s, [])

/-- coordinator.py lines 251-264: the probe-while-offline step. -/
def probe_stage (cfg : Cfg) (now_ts : Int) (s : CoordState) :
    CoordState × List Effect :=
  match s.data with
  | some d =>
      if cfg.probe_when_offline = true ∧ d.online = false then
        if cfg.probe_every ≤ now_ts - s.last_probe_ts then
          ({ s with last_probe_ts := now_ts },
           [Effect.update_entity cfg.voltage_entity_id])
        else (s, [])
      else (s, [])
  | none => (s, [])

/-- coordinator.py lines 266-279: the optional forced-refresh step. -/
def refresh_stage (cfg : Cfg) (now_ts : Int) (s : CoordState) :
    CoordState × List Effect :=
  if 0 < cfg.refresh_every ∧ cfg.refresh_every ≤ now_ts - s.last_refresh_ts then
    ({ s with last_refresh_ts := now_ts },
     [Effect.update_entity cfg.voltage_entity_id])
  else (s, [])

/-- coordinator.py lines 281-306: the reclassification tail of
`_periodic_check`.  The second component is `some new_online` exactly when a
debounced transition is scheduled (after cancelling any live pending task,
modelled by `schedule_pending`); the scheduling reason string does not affect
any published state. -/
def classify_stage (cfg : Cfg) (st : Option SensorState) (s : CoordState) :
    CoordState × Option Bool :=
  let r := compute_online st cfg.stale_timeout
  match s.data with
  | none => (s, none)
  | some d =>
      if r.1 = d.online then
        if d.state ≠ r.2.1 then (sync_data_without_notify cfg r.1 r.2.1 s, none)
        else (s, none)
      else (s, some r.1)

/-- coordinator.py lines 246-306: one `_periodic_check` tick, with `st` the
sensor reading observed by `_compute_online` at line 281. -/
def periodic_check (cfg : Cfg) (st : Option SensorState) (now_ts : Int)
    (s : CoordState) : CoordState × List Effect × Option Bool :=
  let p1 := periodic_ping_stage cfg now_ts s
  let p2 := probe_stage cfg now_ts p1.1
  let p3 := refresh_stage cfg now_ts p2.1
  let p4 := classify_stage cfg st p3.1
  (p4.1, p1.2 ++ p2.2 ++ p3.2, p4.2)

/-- C6: the debounced commit re-reads and reclassifies the signal after its
sleep; when the fresh classification differs from the status the task was
scheduled to commit, it aborts with zero side effects: coordinator state
(published data, since-timestamps, ping timestamp) unchanged and no effects. -/
theorem commit_aborts_on_status_mismatch (cfg : Cfg) (st : Option SensorState)
    (now now_ts : Int) (new_online : Bool) (s : CoordState)
    (h : (compute_online st cfg.stale_timeout).1 ≠ new_online) :
    debounced_commit_body cfg st now now_ts new_online s = (s, []) := by
  simp [debounced_commit_body, h]

/-- Witness for `commit_aborts_on_status_mismatch`: a task scheduled to commit
On finds "unavailable" at commit time and aborts without touching anything. -/
theorem commit_aborts_witness :
    (compute_online (some ⟨"unavailable", 1⟩) (90 : Int)).1 ≠ true ∧
    debounced_commit_body ⟨90, "sensor.v", "tok", "chat", 10, true, 30, true, "k", true, 20, 15⟩
        (some ⟨"unavailable", 1⟩) 100 100 true initCoordState = (initCoordState, []) :=
  ⟨by decide,
    commit_aborts_on_status_mismatch
      ⟨90, "sensor.v", "tok", "chat", 10, true, 30, true, "k", true, 20, 15⟩
      (some ⟨"unavailable", 1⟩) 100 100 true initCoordState (by decide)⟩

/-- C10: with an empty heartbeat channel key the whole heartbeat path is a
no-op: `_fire_svitlobot_ping_if_needed` returns with the coordinator state
untouched (no task, no last-ping update) and `async_channel_ping` issues no
HTTP request. -/
theorem empty_channel_key_noop (cfg : Cfg) (now_ts : Int) (s : CoordState)
    (h : cfg.svitlobot_channel_key = "") :
    fire_svitlobot_ping_if_needed cfg now_ts s = (s, []) ∧
    async_channel_ping cfg.svitlobot_channel_key = [] := by
  constructor
  · simp [fire_svitlobot_ping_if_needed, h]
  · simp [async_channel_ping, h]

/-- Witness for `empty_channel_key_noop` on a concrete configuration. -/
theorem empty_channel_key_noop_witness :
    (Cfg.mk 90 "sensor.v" "tok" "chat" 10 true 30 true "" true 20 15).svitlobot_channel_key = "" ∧
    (fire_svitlobot_ping_if_needed
        ⟨90, "sensor.v", "tok", "chat", 10, true, 30, true, "", true, 20, 15⟩ 100 initCoordState
      = (initCoordState, []) ∧
     async_channel_ping
        (Cfg.mk 90 "sensor.v" "tok" "chat" 10 true 30 true "" true 20 15).svitlobot_channel_key
      = []) :=
  ⟨rfl,
    empty_channel_key_noop
      ⟨90, "sensor.v", "tok", "chat", 10, true, 30, true, "", true, 20, 15⟩ 100 initCoordState rfl⟩

/-- binary_sensor.py lines 26-38: the attribute names `PowerWatchdogPowerSensor`
reads off the coordinator's published snapshot (`data.power_on` in `is_on`;
`data.watched_entity_id`, `data.state`, `data.voltage` in
`extra_state_attributes`). -/
def binary_sensor_read_fields : List String :=
  ["power_on", "watched_entity_id", "state", "voltage"]

/-- coordinator.py lines 42-46: the field names the `WatchdogData` dataclass
actually declares. -/
def WatchdogData_field_names : List String := ["online", "watched_entity_id", "state"]

/-- C2 (code bug): the display collaborator's reads do NOT all succeed — the
binary sensor reads `power_on` and `voltage`, neither of which exists on the
published `WatchdogData` snapshot (which has `online` and `state` instead), so
`is_on` and `extra_state_attributes` raise `AttributeError` on every snapshot. -/
theorem binary_sensor_field_mismatch :
    ("power_on" ∈ binary_sensor_read_fields ∧ "power_on" ∉ WatchdogData_field_names) ∧
    ("voltage" ∈ binary_sensor_read_fields ∧ "voltage" ∉ WatchdogData_field_names) ∧
    ¬ ∀ f ∈ binary_sensor_read_fields, f ∈ WatchdogData_field_names := by decide

/-- `_fire_svitlobot_ping_if_needed` never touches the published data or the
since-timestamps, and its only possible effect is one heartbeat. -/
theorem fire_ping_frame (cfg : Cfg) (now_ts : Int) (s : CoordState) :
    (fire_svitlobot_ping_if_needed cfg now_ts s).1.data = s.data ∧
    (fire_svitlobot_ping_if_needed cfg now_ts s).1.online_since = s.online_since ∧
    (fire_svitlobot_ping_if_needed cfg now_ts s).1.offline_since = s.offline_since ∧
    ∀ e ∈ (fire_svitlobot_ping_if_needed cfg now_ts s).2,
      e = Effect.heartbeat cfg.svitlobot_channel_key := by
  unfold fire_svitlobot_ping_if_needed
  split
  · simp
  · split
    · simp
    · simp

/-- The effect list of `_fire_svitlobot_ping_if_needed` depends on the
coordinator state only through `_last_svitlobot_ping_ts`. -/
theorem fire_ping_effects_congr (cfg : Cfg) (now_ts : Int) (s1 s2 : CoordState)
    (h : s1.last_svitlobot_ping_ts = s2.last_svitlobot_ping_ts) :
    (fire_svitlobot_ping_if_needed cfg now_ts s1).2
      = (fire_svitlobot_ping_if_needed cfg now_ts s2).2 := by
  by_cases hk : cfg.svitlobot_channel_key = ""
  · simp [fire_svitlobot_ping_if_needed, hk]
  · by_cases ht : s2.last_svitlobot_ping_ts ≠ 0 ∧
        now_ts - s2.last_svitlobot_ping_ts < SVITLOBOT_PING_INTERVAL_S
    · simp [fire_svitlobot_ping_if_needed, hk, h, ht]
    · simp only [fire_svitlobot_ping_if_needed, hk, h, ht]
      simp [ht]

/-- C4 counterexample: the claim says a freshly committed transition to On
always pings regardless of the rate limiter, but the commit path calls the
throttled `_fire_svitlobot_ping_if_needed`: with a ping recorded 15 s earlier
(timestamp 5, commit at 20) a genuine Off→On commit publishes the new status
yet issues no heartbeat at all. -/
theorem fresh_on_transition_ping_suppressed_ce :
    (debounced_commit_body ⟨90, "sensor.v", "", "", 10, true, 30, false, "k", true, 20, 15⟩
        (some ⟨"230", 1⟩) 40 20 true
        ⟨some ⟨false, "sensor.v", some "unavailable"⟩, none, some 0, 0, 0, 5⟩).2 = [] ∧
    (debounced_commit_body ⟨90, "sensor.v", "", "", 10, true, 30, false, "k", true, 20, 15⟩
        (some ⟨"230", 1⟩) 40 20 true
        ⟨some ⟨false, "sensor.v", some "unavailable"⟩, none, some 0, 0, 0, 5⟩).1.data
      = some ⟨true, "sensor.v", some "230"⟩ := by
  constructor <;> decide

/-- C4 amended: every heartbeat goes through one rate limiter that pings iff
the channel key is nonempty and either no ping was ever recorded (timestamp 0,
which is why the startup ping of a fresh coordinator always fires) or at least
`SVITLOBOT_PING_INTERVAL_S` seconds have passed; a freshly committed
transition to On requests a ping through that same rate limiter (with alerts
disabled, the commit's effects are exactly the rate limiter's effects), so it
can be suppressed. -/
theorem heartbeat_rate_limiter_thm (cfg : Cfg) (now_ts : Int) (s : CoordState) :
    (fire_svitlobot_ping_if_needed cfg now_ts s
      = if cfg.svitlobot_channel_key ≠ "" ∧
           (s.last_svitlobot_ping_ts = 0 ∨
             SVITLOBOT_PING_INTERVAL_S ≤ now_ts - s.last_svitlobot_ping_ts)
        then ({ s with last_svitlobot_ping_ts := now_ts },
              [Effect.heartbeat cfg.svitlobot_channel_key])
        else (s, [])) ∧
    (cfg.svitlobot_channel_key ≠ "" →
      (fire_svitlobot_ping_if_needed cfg now_ts initCoordState).2
        = [Effect.heartbeat cfg.svitlobot_channel_key]) ∧
    (∀ (st : Option SensorState) (now : Int) (d : WatchdogData),
      s.data = some d → d.online = false → cfg.telegram_enabled = false →
      (compute_online st cfg.stale_timeout).1 = true →
      (debounced_commit_body cfg st now now_ts true s).2
        = (fire_svitlobot_ping_if_needed cfg now_ts s).2) := by
  refine ⟨?_, ?_, ?_⟩
  · by_cases hk : cfg.svitlobot_channel_key = ""
    · simp [fire_svitlobot_ping_if_needed, hk]
    · by_cases ht : s.last_svitlobot_ping_ts ≠ 0 ∧
          now_ts - s.last_svitlobot_ping_ts < SVITLOBOT_PING_INTERVAL_S
      · have hr : ¬ (cfg.svitlobot_channel_key ≠ "" ∧
            (s.last_svitlobot_ping_ts = 0 ∨
              SVITLOBOT_PING_INTERVAL_S ≤ now_ts - s.last_svitlobot_ping_ts)) := by
          rintro ⟨_, h0 | hge⟩
          · exact ht.1 h0
          · exact absurd ht.2 (not_lt.mpr hge)
        rw [if_neg hr]
        simp [fire_svitlobot_ping_if_needed, hk, ht]
      · have hr : cfg.svitlobot_channel_key ≠ "" ∧
            (s.last_svitlobot_ping_ts = 0 ∨
              SVITLOBOT_PING_INTERVAL_S ≤ now_ts - s.last_svitlobot_ping_ts) := by
          refine ⟨hk, ?_⟩
          by_cases h0 : s.last_svitlobot_ping_ts = 0
          · exact Or.inl h0
          · have hnl : ¬ now_ts - s.last_svitlobot_ping_ts < SVITLOBOT_PING_INTERVAL_S :=
              fun hlt => ht ⟨h0, hlt⟩
            exact Or.inr (le_of_not_lt hnl)
        rw [if_pos hr]
        simp [fire_svitlobot_ping_if_needed, hk, ht]
  · intro hk
    simp [fire_svitlobot_ping_if_needed, hk, initCoordState]
  · intro st now d hd hoff hteleg hcls
    simp only [debounced_commit_body, hcls, hd, Option.map_some, hoff,
      transition_bookkeeping, hteleg]
    simp [hoff]
    exact fire_ping_effects_congr cfg now_ts _ s rfl

/-- Witness for `heartbeat_rate_limiter_thm`: a concrete Off→On commit at
time 20 with a ping recorded at 5 produces exactly the rate limiter's (empty)
effect list. -/
theorem heartbeat_rate_limiter_witness :
    (compute_online (some ⟨"230", 1⟩) (90 : Int)).1 = true ∧
    (debounced_commit_body ⟨90, "sensor.v", "tok", "chat", 10, true, 30, false, "k", true, 20, 15⟩
        (some ⟨"230", 1⟩) 40 20 true
        ⟨some ⟨false, "sensor.v", some "unavailable"⟩, none, some 0, 0, 0, 5⟩).2
      = (fire_svitlobot_ping_if_needed
          ⟨90, "sensor.v", "tok", "chat", 10, true, 30, false, "k", true, 20, 15⟩ 20
          ⟨some ⟨false, "sensor.v", some "unavailable"⟩, none, some 0, 0, 0, 5⟩).2 :=
  ⟨by decide,
    (heartbeat_rate_limiter_thm
        ⟨90, "sensor.v", "tok", "chat", 10, true, 30, false, "k", true, 20, 15⟩ 20
        ⟨some ⟨false, "sensor.v", some "unavailable"⟩, none, some 0, 0, 0, 5⟩).2.2
      (some ⟨"230", 1⟩) 40 ⟨false, "sensor.v", some "unavailable"⟩ rfl rfl rfl (by decide)⟩

/-- The heartbeat step of `_periodic_check` never touches the published data
or the since-timestamps, only emits heartbeats, and emits nothing at all when
the published status is Off. -/
theorem ping_stage_frame (cfg : Cfg) (now_ts : Int) (s : CoordState) :
    (periodic_ping_stage cfg now_ts s).1.data = s.data ∧
    (periodic_ping_stage cfg now_ts s).1.online_since = s.online_since ∧
    (periodic_ping_stage cfg now_ts s).1.offline_since = s.offline_since ∧
    (∀ e ∈ (periodic_ping_stage cfg now_ts s).2,
        e = Effect.heartbeat cfg.svitlobot_channel_key) ∧
    (∀ d, s.data = some d → d.online = false →
        (periodic_ping_stage cfg now_ts s).2 = []) := by
  unfold periodic_ping_stage
  cases hd : s.data with
  | none => simp [hd]
  | some d =>
      cases ho : d.online with
      | false => simp [hd, ho]
      | true =>
          have F := fire_ping_frame cfg now_ts s
          simp only [ho, if_true]
          refine ⟨F.1.trans hd, F.2.1, F.2.2.1, F.2.2.2, ?_⟩
          intro d' hd' hoff
          cases hd'
          rw [ho] at hoff
          simp at hoff

/-- The probe step of `_periodic_check` never touches the published data, the
since-timestamps or the ping timestamp, and only emits forced refreshes. -/
theorem probe_stage_frame (cfg : Cfg) (now_ts : Int) (s : CoordState) :
    (probe_stage cfg now_ts s).1.data = s.data ∧
    (probe_stage cfg now_ts s).1.online_since = s.online_since ∧
    (probe_stage cfg now_ts s).1.offline_since = s.offline_since ∧
    (probe_stage cfg now_ts s).1.last_svitlobot_ping_ts = s.last_svitlobot_ping_ts ∧
    ∀ e ∈ (probe_stage cfg now_ts s).2,
      e = Effect.update_entity cfg.voltage_entity_id := by
  cases hd : s.data with
  | none => simp [probe_stage, hd]
  | some d =>
      simp only [probe_stage, hd]
      split
      · split
        · simp
        · simp [hd]
      · simp [hd]

/-- The forced-refresh step of `_periodic_check` never touches the published
data, the since-timestamps or the ping timestamp, and only emits forced
refreshes. -/
theorem refresh_stage_frame (cfg : Cfg) (now_ts : Int) (s : CoordState) :
    (refresh_stage cfg now_ts s).1.data = s.data ∧
    (refresh_stage cfg now_ts s).1.online_since = s.online_since ∧
    (refresh_stage cfg now_ts s).1.offline_since = s.offline_since ∧
    (refresh_stage cfg now_ts s).1.last_svitlobot_ping_ts = s.last_svitlobot_ping_ts ∧
    ∀ e ∈ (refresh_stage cfg now_ts s).2,
      e = Effect.update_entity cfg.voltage_entity_id := by
  unfold refresh_stage
  split <;> simp

/-- When the fresh classification matches the published status, the
reclassification tail of `_periodic_check` schedules nothing and at most
replaces the published raw value. -/
theorem classify_stage_same (cfg : Cfg) (st : Option SensorState) (s : CoordState)
    (d : WatchdogData) (hd : s.data = some d)
    (hsame : (compute_online st cfg.stale_timeout).1 = d.online) :
    (classify_stage cfg st s).2 = none ∧
    (classify_stage cfg st s).1.online_since = s.online_since ∧
    (classify_stage cfg st s).1.offline_since = s.offline_since ∧
    (classify_stage cfg st s).1.data.map (fun w => w.online) = some d.online := by
  unfold classify_stage
  rw [hd]
  simp only [hsame, if_true]
  split
  · simp [sync_data_without_notify, hsame]
  · simp [hd]

/-- C7 counterexample: a periodic tick whose fresh classification equals the
published status (both On) still fires the heartbeat — the top of
`_periodic_check` pings whenever the published status is On, so "neither the
heartbeat nor the alert notifier fires" fails for the periodic check. -/
theorem periodic_same_status_heartbeat_ce :
    (compute_online (some ⟨"230", 1⟩) (90 : Int)).1
        = (WatchdogData.mk true "sensor.v" (some "231")).online ∧
    (periodic_check ⟨90, "sensor.v", "tok", "chat", 10, true, 0, true, "k", true, 20, 15⟩
        (some ⟨"230", 1⟩) 100
        ⟨some ⟨true, "sensor.v", some "231"⟩, some 0, none, 0, 0, 0⟩).2.1
      = [Effect.heartbeat "k"] := by
  constructor <;> decide

/-- C7 amended: when the newly classified status equals the published status,
the event handler and the debounced commit only replace the published snapshot
in place (same status, new raw value) with no scheduling, no effects and
unchanged since-timestamps; the periodic check likewise schedules nothing,
never fires the alert, keeps the since-timestamps and the published status,
and fires no heartbeat when the published status is Off — but when it is On
the periodic status-On heartbeat (subject to its own rate limit) may still
ping during the same tick. -/
theorem same_status_refresh_frame_thm (cfg : Cfg) (st : Option SensorState)
    (ns : Option String) (now now_ts : Int) (s : CoordState) (d : WatchdogData)
    (hd : s.data = some d) :
    (is_online ns = d.online →
      handle_event cfg ns s = (sync_data_without_notify cfg d.online ns s, false)) ∧
    ((compute_online st cfg.stale_timeout).1 = d.online →
      debounced_commit_body cfg st now now_ts d.online s
        = (sync_data_without_notify cfg d.online
            (compute_online st cfg.stale_timeout).2.1 s, [])) ∧
    ((compute_online st cfg.stale_timeout).1 = d.online →
      (periodic_check cfg st now_ts s).2.2 = none ∧
      (∀ tok cid txt, Effect.telegram tok cid txt ∉ (periodic_check cfg st now_ts s).2.1) ∧
      (periodic_check cfg st now_ts s).1.online_since = s.online_since ∧
      (periodic_check cfg st now_ts s).1.offline_since = s.offline_since ∧
      (periodic_check cfg st now_ts s).1.data.map (fun w => w.online) = some d.online ∧
      (d.online = false → ∀ k, Effect.heartbeat k ∉ (periodic_check cfg st now_ts s).2.1)) := by
  refine ⟨?_, ?_, ?_⟩
  · intro hio
    simp [handle_event, hd, hio]
  · intro hsame
    simp [debounced_commit_body, hd, hsame]
  · intro hsame
    obtain ⟨F1d, F1on, F1off, F1eff, F1nil⟩ := ping_stage_frame cfg now_ts s
    obtain ⟨F2d, F2on, F2off, F2last, F2eff⟩ :=
      probe_stage_frame cfg now_ts (periodic_ping_stage cfg now_ts s).1
    obtain ⟨F3d, F3on, F3off, F3last, F3eff⟩ :=
      refresh_stage_frame cfg now_ts
        (probe_stage cfg now_ts (periodic_ping_stage cfg now_ts s).1).1
    have hd3 : (refresh_stage cfg now_ts
        (probe_stage cfg now_ts (periodic_ping_stage cfg now_ts s).1).1).1.data
          = some d := by
      rw [F3d, F2d, F1d, hd]
    obtain ⟨Cq1, Cq2, Cq3, Cq4⟩ := classify_stage_same cfg st _ d hd3 hsame
    refine ⟨?_, ?_, ?_, ?_, ?_, ?_⟩
    · simpa [periodic_check] using Cq1
    · intro tok cid txt hmem
      simp only [periodic_check, List.mem_append] at hmem
      rcases hmem with (h | h) | h
      · have := F1eff _ h
        simp at this
      · have := F2eff _ h
        simp at this
      · have := F3eff _ h
        simp at this
    · simp only [periodic_check]
      rw [Cq2, F3on, F2on, F1on]
    · simp only [periodic_check]
      rw [Cq3, F3off, F2off, F1off]
    · simpa [periodic_check] using Cq4
    · intro hoff k hmem
      simp only [periodic_check, List.mem_append] at hmem
      rcases hmem with (h | h) | h
      · rw [F1nil d hd hoff] at h
        cases h
      · have := F2eff _ h
        simp at this
      · have := F3eff _ h
        simp at this

/-- Witness for `same_status_refresh_frame_thm`: a same-status event ("230"
while published On) is applied as an in-place refresh with no scheduling. -/
theorem same_status_refresh_frame_witness :
    is_online (some "230") = (WatchdogData.mk true "sensor.v" (some "231")).online ∧
    handle_event ⟨90, "sensor.v", "tok", "chat", 10, true, 30, true, "k", true, 20, 15⟩
        (some "230") ⟨some ⟨true, "sensor.v", some "231"⟩, some 0, none, 0, 0, 0⟩
      = (sync_data_without_notify
          ⟨90, "sensor.v", "tok", "chat", 10, true, 30, true, "k", true, 20, 15⟩
          (WatchdogData.mk true "sensor.v" (some "231")).online (some "230")
          ⟨some ⟨true, "sensor.v", some "231"⟩, some 0, none, 0, 0, 0⟩, false) :=
  ⟨by decide,
    (same_status_refresh_frame_thm
        ⟨90, "sensor.v", "tok", "chat", 10, true, 30, true, "k", true, 20, 15⟩
        (some ⟨"230", 1⟩) (some "230") 0 0
        ⟨some ⟨true, "sensor.v", some "231"⟩, some 0, none, 0, 0, 0⟩
        ⟨true, "sensor.v", some "231"⟩ rfl).1 (by decide)⟩

end Svitlobot
